import Mathlib

/-!
Shallow embedding of `src/scalability_graphs.py`, a linear script that
computes derived numeric series from literal constant arrays and renders
them as charts.  Machine floats of the source are modelled as rationals
(`ℚ`); the `np.inf` sentinel of the spark-cost series is modelled as
`none : Option ℚ`.  Numpy arrays are modelled as Lean lists, and
elementwise numpy arithmetic as `List.map`.
-/

namespace ScalabilityGraphs

/-- `users` literal array of Graph 1 (line 9 of the source). -/
def users : List ℕ := [0, 100, 200, 500, 800, 1000, 1500, 2000]

/-- Line 10: `operations_single_bus = 800 + users * 50 + 200`, elementwise
over the users array (bus ops + user reads + admin). -/
def operations_single_bus (us : List ℕ) : List ℕ :=
  us.map (fun u => 800 + u * 50 + 200)

/-- Line 11: `spark_limit = 50000`. -/
def spark_limit : ℕ := 50000

/-- `buses` literal array of Graph 2 (line 24). -/
def buses : List ℕ := [1, 2, 3, 4, 5, 6, 7, 8]

/-- Line 25: `users_per_bus = 500`. -/
def users_per_bus : ℕ := 500

/-- Line 26: `operations_multi_bus = buses * (800 + users_per_bus * 50 + 200)`,
elementwise over the buses array. -/
def operations_multi_bus (bs : List ℕ) (upb : ℕ) : List ℕ :=
  bs.map (fun b => b * (800 + upb * 50 + 200))

/-- `operations_range` literal array of Graph 3 (line 39). -/
def operations_range : List ℚ := [10000, 25000, 50000, 100000, 200000, 500000]

/-- Line 40: `spark_cost = np.where(operations_range <= 50000, 0, np.inf)`,
pointwise; the `np.inf` sentinel is modelled as `none`. -/
def spark_cost (op : ℚ) : Option ℚ :=
  if op ≤ 50000 then some 0 else none

/-- Line 41: `blaze_cost = np.maximum(0, (operations_range - 50000) * 0.06 / 100000)`,
pointwise; `0.06` is the exact rational `6/100`. -/
def blaze_cost (op : ℚ) : ℚ :=
  max 0 ((op - 50000) * (6 / 100) / 100000)

/-- Model of numpy `.max()` over a (nonempty, non-negative) array. -/
def listMax (l : List ℕ) : ℕ := l.foldl max 0

/-- A `fill_between(x, lo, hi)` band, recorded by its two y-bounds. -/
structure FillRegion where
  lo : ℕ
  hi : ℕ
deriving DecidableEq

/-- Line 15: `ax1.fill_between(users, 0, spark_limit, ...)` (Safe Zone). -/
def ax1_safe_fill : FillRegion := ⟨0, spark_limit⟩

/-- Line 16: `ax1.fill_between(users, spark_limit, operations_single_bus.max(), ...)`
(Danger Zone). -/
def ax1_danger_fill : FillRegion :=
  ⟨spark_limit, listMax (operations_single_bus users)⟩

/-- Line 30: `ax2.fill_between(buses, 0, spark_limit, ...)` (Safe Zone). -/
def ax2_safe_fill : FillRegion := ⟨0, spark_limit⟩

/-- Line 31: `ax2.fill_between(buses, spark_limit, operations_multi_bus.max(), ...)`
(Danger Zone). -/
def ax2_danger_fill : FillRegion :=
  ⟨spark_limit, listMax (operations_multi_bus buses users_per_bus)⟩

/-- Line 54: the hardcoded operation counts of the six load scenarios of Graph 4. -/
def operations : List ℕ := [6000, 26000, 51000, 27000, 53000, 105000]

/-- Line 55: the hardcoded bar colors of the six load scenarios. -/
def colors : List String := ["green", "green", "orange", "green", "red", "red"]

/-- Line 56: the hardcoded status annotations of the six load scenarios. -/
def status : List String := ["Safe", "Safe", "Warning", "Safe", "Critical", "Critical"]

/-- Line 82: the five pie-chart operation-breakdown values of Graph 5. -/
def operations_breakdown : List ℕ := [800, 400, 50000, 200, 144]

/-- Line 91: `operations_before = [150000, 51544, 25000]` of Graph 6. -/
def operations_before : List ℕ := [150000, 51544, 25000]

/-- The five enumerated findings strings printed on lines 113–117. -/
def findingsLines : List String :=
  ["1. Single bus can handle up to 800 users safely on Spark plan",
   "2. Multiple buses require careful user distribution",
   "3. 3+ buses with 1000+ users need Blaze plan",
   "4. Current optimizations reduce operations by ~66%",
   "5. Further optimizations could support 2000+ users on Spark plan"]

/-- The full standard-output trace of a run, as lines (lines 111–117 of the
source): the confirmation line, then the blank line and header produced by
`print("\nKey Findings:")`, then the five findings. -/
def programStdoutLines : List String :=
  "Scalability analysis graphs generated successfully!" :: "" ::
    "Key Findings:" :: findingsLines

/-- A line is an enumerated findings line when it starts with a digit
followed by a period. -/
def isEnumLine (s : String) : Bool :=
  match s.data with
  | c :: d :: _ => c.isDigit && d == '.'
  | _ => false

/-- The summary printing step, given access to every computed series.  The
source's `print` calls (lines 112–117) use only string literals, so the
result ignores all four series arguments. -/
def printSummaryLines (_opsSingle _opsMulti : List ℕ)
    (_sparkSeries : List (Option ℚ)) (_blazeSeries : List ℚ) : List String :=
  findingsLines

/-- The numeric series computed by one run of the script. -/
structure GenOutput where
  singleBus : List ℕ
  multiBus : List ℕ
  sparkSeries : List (Option ℚ)
  blazeSeries : List ℚ
deriving DecidableEq

/-- One run of the generator's numeric computations (lines 9–41), from the
constant arrays it is given. -/
def runGenerator (us bs : List ℕ) (upb : ℕ) (range : List ℚ) : GenOutput :=
  ⟨operations_single_bus us, operations_multi_bus bs upb,
   range.map spark_cost, range.map blaze_cost⟩

/-- C1: for every index `i` into the users sequence, the single-bus
operations series equals `users[i]*50 + 1000` (the code's
`800 + users*50 + 200`), for any non-negative input; in particular
`users = [0,100,1000]` yields `[1000, 6000, 51000]`. -/
theorem single_bus_series_formula (us : List ℕ) (i : ℕ) (h : i < us.length) :
    (operations_single_bus us).getD i 0 = us.getD i 0 * 50 + 1000 ∧
      operations_single_bus [0, 100, 1000] = [1000, 6000, 51000] := by
  refine ⟨?_, by decide⟩
  have h2 : i < (operations_single_bus us).length := by
    simpa [operations_single_bus] using h
  rw [List.getD_eq_getElem _ _ h2, List.getD_eq_getElem _ _ h]
  simp [operations_single_bus]
  ring

/-- Witness for C1 at `users = [0,100,1000]`, `i = 2`. -/
theorem single_bus_series_formula_witness :
    (operations_single_bus [0, 100, 1000]).getD 2 0 =
      ([0, 100, 1000] : List ℕ).getD 2 0 * 50 + 1000 :=
  (single_bus_series_formula [0, 100, 1000] 2 (by decide)).1

/-- C2: for every index `i` into the buses sequence, the multi-bus
operations series with 500 users per bus equals
`buses[i] * (500*50 + 1000) = buses[i] * 26000`; in particular
`buses = [1,2,5]` yields `[26000, 52000, 130000]`. -/
theorem multi_bus_series_formula (bs : List ℕ) (i : ℕ) (h : i < bs.length) :
    (operations_multi_bus bs 500).getD i 0 = bs.getD i 0 * 26000 ∧
      operations_multi_bus [1, 2, 5] 500 = [26000, 52000, 130000] := by
  refine ⟨?_, by decide⟩
  have h2 : i < (operations_multi_bus bs 500).length := by
    simpa [operations_multi_bus] using h
  rw [List.getD_eq_getElem _ _ h2, List.getD_eq_getElem _ _ h]
  simp [operations_multi_bus]

/-- Witness for C2 at `buses = [1,2,5]`, `i = 2`. -/
theorem multi_bus_series_formula_witness :
    (operations_multi_bus [1, 2, 5] 500).getD 2 0 =
      ([1, 2, 5] : List ℕ).getD 2 0 * 26000 :=
  (multi_bus_series_formula [1, 2, 5] 2 (by decide)).1

/-- C3: with free threshold 50000 and rate 0.06, the spark cost is 0 for
every operation count at most 50000 — the boundary 50000 itself included,
and 50000 is an actual entry of the range — and the unbounded sentinel
above it; the blaze cost is `max 0 ((op - 50000) * 0.06 / 100000)`.  Over
the literal range this gives spark `[0,0,0,∞,∞,∞]` and blaze
`[0, 0, 0, 0.03, 0.09, 0.27]`. -/
theorem cost_series_spec (op : ℚ) :
    (op ≤ 50000 → spark_cost op = some 0) ∧
      (50000 < op → spark_cost op = none) ∧
      spark_cost 50000 = some 0 ∧ (50000 : ℚ) ∈ operations_range ∧
      blaze_cost op = max 0 ((op - 50000) * (6 / 100) / 100000) ∧
      operations_range.map spark_cost =
        [some 0, some 0, some 0, none, none, none] ∧
      operations_range.map blaze_cost = [0, 0, 0, 3/100, 9/100, 27/100] := by
  refine ⟨fun h => by simp [spark_cost, h], fun h => by simp [spark_cost, not_le.mpr h],
    by norm_num [spark_cost], by norm_num [operations_range], rfl, ?_, ?_⟩
  · simp only [operations_range, List.map]
    norm_num [spark_cost]
  · simp only [operations_range, List.map]
    norm_num [blaze_cost]

/-- Witness for C3 at `op = 50000` (the inclusive boundary). -/
theorem cost_series_spec_witness :
    spark_cost 50000 = some 0 ∧ (50000 : ℚ) ≤ 50000 :=
  ⟨(cost_series_spec 50000).1 (by norm_num), by norm_num⟩

/-- C4: the blaze cost is monotonically non-decreasing in the operation
count: whenever `x ≤ y`, `blaze_cost x ≤ blaze_cost y`; e.g. the range
`[10000, 100000]` yields blaze costs `[0, 0.03]`. -/
theorem blaze_cost_monotone (x y : ℚ) (h : x ≤ y) :
    blaze_cost x ≤ blaze_cost y ∧
      ([10000, 100000] : List ℚ).map blaze_cost = [0, 3/100] := by
  refine ⟨?_, by simp only [List.map]; norm_num [blaze_cost]⟩
  unfold blaze_cost
  refine max_le_max le_rfl ?_
  have hxy : (x - 50000) * (6 / 100) ≤ (y - 50000) * (6 / 100) := by linarith
  linarith

/-- Witness for C4 at `x = 10000`, `y = 100000`. -/
theorem blaze_cost_monotone_witness :
    blaze_cost 10000 ≤ blaze_cost 100000 :=
  (blaze_cost_monotone 10000 100000 (by norm_num)).1

/-- C5: the generator is deterministic: two invocations on identical
constant arrays produce equal numeric series (single-bus operations,
multi-bus operations, spark and blaze cost series). -/
theorem generator_deterministic (us bs us2 bs2 : List ℕ) (upb upb2 : ℕ)
    (range range2 : List ℚ) (h1 : us = us2) (h2 : bs = bs2)
    (h3 : upb = upb2) (h4 : range = range2) :
    runGenerator us bs upb range = runGenerator us2 bs2 upb2 range2 := by
  rw [h1, h2, h3, h4]

/-- Witness for C5: two runs on the script's literal constants agree. -/
theorem generator_deterministic_witness :
    runGenerator users buses users_per_bus operations_range =
      runGenerator users buses users_per_bus operations_range :=
  generator_deterministic users buses users buses users_per_bus users_per_bus
    operations_range operations_range rfl rfl rfl rfl

/-- C6: the standard-output trace begins with exactly one confirmation
line, contains exactly five enumerated findings lines, and those five
findings are precisely its last five lines (they all follow the
confirmation line). -/
theorem stdout_structure :
    programStdoutLines.head? =
        some "Scalability analysis graphs generated successfully!" ∧
      programStdoutLines.countP isEnumLine = 5 ∧
      programStdoutLines.drop 3 = findingsLines ∧
      findingsLines.length = 5 ∧ findingsLines.all isEnumLine = true ∧
      isEnumLine "Scalability analysis graphs generated successfully!" = false := by
  decide

/-- C7: the printed findings are static text: for any values of the
computed operation and cost series, the summary step emits the same five
fixed strings. -/
theorem summary_independent_of_series (a a2 b b2 : List ℕ)
    (s s2 : List (Option ℚ)) (bl bl2 : List ℚ) :
    printSummaryLines a b s bl = printSummaryLines a2 b2 s2 bl2 ∧
      printSummaryLines a b s bl = findingsLines :=
  ⟨rfl, rfl⟩

/-- C8: in Graphs 1 and 2 the safe fill spans from 0 up to the 50000
threshold and the danger fill spans from the threshold up to the maximum
of that graph's plotted series (101000 for Graph 1, 208000 for Graph 2). -/
theorem fill_region_bounds :
    ax1_safe_fill = ⟨0, 50000⟩ ∧
      ax1_danger_fill = ⟨spark_limit, listMax (operations_single_bus users)⟩ ∧
      ax1_danger_fill = ⟨50000, 101000⟩ ∧
      ax2_safe_fill = ⟨0, 50000⟩ ∧
      ax2_danger_fill =
        ⟨spark_limit, listMax (operations_multi_bus buses users_per_bus)⟩ ∧
      ax2_danger_fill = ⟨50000, 208000⟩ := by
  decide

/-- C9: for each of the six load scenarios of Graph 4, the status
annotation is `Safe` exactly when that scenario's operation count is at
most the 50000 spark limit, and the bar color is `green` exactly for the
`Safe` scenarios. -/
theorem load_scenario_status (i : ℕ) (h : i < 6) :
    (status.getD i "" = "Safe" ↔ operations.getD i 0 ≤ spark_limit) ∧
      (colors.getD i "" = "green" ↔ status.getD i "" = "Safe") := by
  interval_cases i <;> constructor <;> decide

/-- Witness for C9 at `i = 2` (the 51000-operation Warning scenario). -/
theorem load_scenario_status_witness :
    (status.getD 2 "" = "Safe" ↔ operations.getD 2 0 ≤ spark_limit) ∧
      (colors.getD 2 "" = "green" ↔ status.getD 2 "" = "Safe") :=
  load_scenario_status 2 (by decide)

/-- C10: the five pie-chart breakdown values sum to 51544, which equals
the `Current Optimization` entry of the optimization bar chart. -/
theorem breakdown_sum_consistent :
    operations_breakdown.sum = 51544 ∧
      operations_before.getD 1 0 = operations_breakdown.sum := by
  decide

end ScalabilityGraphs
